import Mathlib

/-!
Verification development for the `2d3d_Heatmap_UI` repository (`src/app.py`).

The single source file is a Flask application that
 1. accepts an uploaded spreadsheet/CSV plus a sheet identifier,
 2. parses it into a pandas DataFrame,
 3. builds a prompt embedding the DataFrame's CSV serialization,
 4. sends the prompt to a hosted generative model,
 5. strips markdown fences from the returned text and runs it with
    `exec(full_script, globals())`, and
 6. serves the two PNG artifacts the script is expected to write to `/tmp`.

The shallow embedding below translates `src/app.py` into pure Lean functions.
External effects (pandas parsing, the AI call, and the execution of the
AI-generated script body) are inputs packaged in an `Env` record: the claims
quantify over or instantiate them.  Machine state is explicit: the module
global environment is a lookup function, the filesystem is the list of
existing paths, and diagnostic server-side output (the error `print`s and
`app.logger.error`) is a list of log lines.  Routine progress prints that
carry no request data are not tracked.
-/

/-! ## Character-list string primitives (Python semantics) -/

/-- Prefix test on character lists: `startsWithChars p l` holds when `p` is an
initial segment of `l`. -/
def startsWithChars : List Char → List Char → Bool
  | [], _ => true
  | _ :: _, [] => false
  | p :: ps, c :: cs => decide (p = c) && startsWithChars ps cs

/-- Index of the last occurrence of a character in a list, if any
(Python `str.rfind` restricted to single characters). -/
def lastIndexOf (c : Char) : List Char → Option Nat
  | [] => none
  | x :: xs =>
    match lastIndexOf c xs with
    | some n => some (n + 1)
    | none => if x = c then some 0 else none

/-- Python `os.path.splitext` (posix flavour): split off the extension at the
last dot of the basename, provided some character of the basename before that
dot is not itself a dot. -/
def splitextList (l : List Char) : List Char × List Char :=
  match lastIndexOf '.' l, lastIndexOf '/' l with
  | none, _ => (l, [])
  | some d, sep =>
    let sepEnd : Nat := match sep with | none => 0 | some s => s + 1
    let dotOk : Bool := match sep with | none => true | some s => decide (s < d)
    if dotOk && ((l.drop sepEnd).take (d - sepEnd)).any (fun c => c != '.') then
      (l.take d, l.drop d)
    else (l, [])

/-- Python whitespace characters stripped by `str.strip()` (ASCII part). -/
def isPySpace (c : Char) : Bool :=
  c = ' ' || c = '\t' || c = '\n' || c = '\r' || c = '\x0b' || c = '\x0c'

/-- Python `str.strip()` on character lists. -/
def pyStripChars (l : List Char) : List Char :=
  ((l.dropWhile isPySpace).reverse.dropWhile isPySpace).reverse

/-- Python `str.strip()`. -/
def pyStripStr (s : String) : String := ⟨pyStripChars s.data⟩

/-- Python `os.path.join` (posix, two arguments): an absolute second component
replaces the first, otherwise a separator is inserted unless one is present. -/
def posixJoin (a b : String) : String :=
  if b.data.head? = some '/' then b
  else if a.data = [] || a.data.getLast? = some '/' then a ++ b
  else a ++ "/" ++ b

/-- Python `os.path.basename`: the part after the last `/`. -/
def posixBasename (p : String) : String :=
  ⟨(p.data.reverse.takeWhile (fun c => c != '/')).reverse⟩

/-- Python `str.isdigit` (ASCII part): nonempty and all decimal digits. -/
def pyIsDigit (s : String) : Bool :=
  s.data ≠ [] && s.data.all (fun c => decide ('0' ≤ c) && decide (c ≤ '9'))

/-- Python `int(...)` on a string of decimal digits. -/
def pyNatOfDigits (s : String) : Nat :=
  s.data.foldl (fun a c => a * 10 + (c.toNat - '0'.toNat)) 0

/-- Python `str.lower` of the character list (ASCII part, as used on
file extensions). -/
def lowerChars (l : List Char) : List Char := l.map Char.toLower

/-! ## Markdown fence stripping (`re.sub` in `app.py` line 82)

`generated_code = re.sub(r'```python\n|```', '', response.text).strip()`
scans the text left to right; at each position the regex first tries the
alternative ```python\n (backticks then `python` then a newline) and then the
bare triple backtick, removing every match — not only surrounding fences. -/

/-- The ten characters of the opening fence alternative. -/
def fenceOpenData : List Char := ['`', '`', '`', 'p', 'y', 't', 'h', 'o', 'n', '\n']

/-- The three characters of the bare fence alternative. -/
def fenceTicksData : List Char := ['`', '`', '`']

/-- One left-to-right `re.sub` scan with the pattern of line 82, driven by a
fuel argument for structural recursion (the scan consumes at least one
character per step, so fuel equal to the length of the text always
suffices): at each position, remove a ```python\n match if present, else a
``` match if present, else keep the character and advance. -/
def reSubFencesAux : Nat → List Char → List Char
  | 0, l => l
  | _ + 1, [] => []
  | fuel + 1, c :: cs =>
    if startsWithChars fenceOpenData (c :: cs) then reSubFencesAux fuel (cs.drop 9)
    else if startsWithChars fenceTicksData (c :: cs) then reSubFencesAux fuel (cs.drop 2)
    else c :: reSubFencesAux fuel cs

/-- Faithful model of `re.sub(r'```python\n|```', '', text)`: every match is
removed, wherever it occurs, with the longer alternative preferred at each
position. -/
def reSubFences (l : List Char) : List Char := reSubFencesAux l.length l

/-- Whether a character list contains a triple backtick anywhere. -/
def containsTicks : List Char → Bool
  | [] => false
  | c :: cs => startsWithChars fenceTicksData (c :: cs) || containsTicks cs

/-- The GeneratedScript of line 82: the completion with every fence
occurrence removed, then stripped of leading/trailing whitespace. -/
def generatedCode (text : String) : String := pyStripStr ⟨reSubFences text.data⟩

/-- Modelled from the spec: the spec describes the GeneratedScript as the
completion "stripped of any *surrounding* code-fence markup" with
leading/trailing whitespace removed; this comparator removes a fence only at
the very start and the very end of the (whitespace-stripped) text. It exists
solely to be compared against `generatedCode`, the function translated from
the source. -/
def stripSurroundingSpec (text : String) : String :=
  let l1 := pyStripChars text.data
  let l2 :=
    if startsWithChars fenceOpenData l1 then l1.drop 10
    else if startsWithChars fenceTicksData l1 then l1.drop 3
    else l1
  let l3 :=
    if startsWithChars fenceTicksData.reverse l2.reverse then l2.take (l2.length - 3)
    else l2
  ⟨pyStripChars l3⟩

/-! ## Data model -/

/-- A pandas DataFrame, abstracted by the only view `app.py` takes of it:
its `to_csv()` serialization (line 26).  Parsing is delegated to pandas and is
therefore part of `Env`. -/
structure DataFrame where
  toCsv : String
deriving DecidableEq

/-- The sheet identifier passed to `pd.read_excel` (line 175):
`int(sheet_input) if sheet_input.isdigit() else sheet_input`. -/
inductive SheetId where
  | byIndex (n : Nat)
  | byName (s : String)
deriving DecidableEq

/-- Line 175 of `app.py`. -/
def sheetIdentifier (sheet_input : String) : SheetId :=
  if pyIsDigit sheet_input then .byIndex (pyNatOfDigits sheet_input) else .byName sheet_input

/-- The module-level global environment of the Python process: a lookup from
names to an abstract rendering of the bound value. -/
def Globals := String → Option String

/-- Binding a name in the module globals (a Python assignment at module/global
scope). -/
def pyUpdate (g : Globals) (name v : String) : Globals :=
  fun m => if m = name then some v else g m

/-- The filesystem, as the list of paths of existing files. -/
abbrev FS := List String

/-- Outcome of executing the AI-generated script body inside
`exec(full_script, globals())`: whether it raised, the exception text when it
did, and the (possibly partially) updated globals and filesystem. -/
structure ExecResult where
  ok : Bool
  err : String
  globals : Globals
  fs : FS

/-- The external world: pandas parsing, the Vertex AI call, and the behaviour
of the arbitrary AI-generated script body once `exec` reaches it. -/
structure Env where
  readExcel : List Nat → SheetId → Except String DataFrame
  readCsv : List Nat → Except String DataFrame
  aiResponse : String → Except String String
  runScript : String → Globals → FS → ExecResult

/-! ## Output naming (lines 30–37 of `app.py`) -/

/-- Line 30: `base_name = os.path.splitext(excel_filename)[0]`. -/
def base_name (excel_filename : String) : String :=
  ⟨(splitextList excel_filename.data).1⟩

/-- Line 31: `sheet_str = str(sheet_name).replace(" ", "_")` (the argument is
already the submitted string). -/
def sheet_str (sheet_name : String) : String :=
  ⟨sheet_name.data.map (fun c => if c = ' ' then '_' else c)⟩

/-- Line 32. -/
def output_filename_composite (excel_filename sheet_name : String) : String :=
  base_name excel_filename ++ "_sheet_" ++ sheet_str sheet_name ++ "_composite_plot.png"

/-- Line 33. -/
def output_filename_combined (excel_filename sheet_name : String) : String :=
  base_name excel_filename ++ "_sheet_" ++ sheet_str sheet_name ++ "_combined_ctp_graph.png"

/-- Line 36: `composite_path = os.path.join("/tmp", output_filename_composite)`. -/
def composite_path (excel_filename sheet_name : String) : String :=
  posixJoin "/tmp" (output_filename_composite excel_filename sheet_name)

/-- Line 37. -/
def combined_path (excel_filename sheet_name : String) : String :=
  posixJoin "/tmp" (output_filename_combined excel_filename sheet_name)

/-! ## The prompt (lines 40–72 of `app.py`) -/

/-- Lines 40–44 of the f-string, up to the first substitution. -/
def promptPart0 : String :=
  "\n    You are an expert Python data visualization programmer. Your task is to write a single, runnable Python script that generates TWO separate plot images from the data provided.\n\n    Here is the data in CSV format:\n    --- START OF DATA ---\n    "

/-- Lines 46–61 of the f-string, between the CSV data and the composite path. -/
def promptPart1 : String :=
  "\n    --- END OF DATA ---\n\n    Please write a Python script that contains two separate functions and then calls both of them.\n\n    ### Function 1: Create Composite Plot\n    This function must perform these actions:\n    1. Import all necessary libraries: pandas, numpy, matplotlib, matplotlib.gridspec, matplotlib.colors, adjustText, and io.\n    2. Read the provided CSV data string into a pandas DataFrame using io.StringIO.\n    3. Separate the data into `main_data`, `longitudinal_ctp`, and `circumferential_ctp`.\n    4. Use a custom LinearSegmentedColormap with [\"red\", \"yellow\", \"green\"].\n    5. The plot must have 'Longitudinal Position' (M-values) on the Y-axis and 'Circumferential Position' (C-values) on the X-axis.\n    6. Automatically find and mark all row/column minima on the central contour plot.\n    7. Use `adjustText` to create clear, non-overlapping labels for the marked points.\n    8. The top panel must plot `longitudinal_ctp` and be titled 'Circumferential CTP'.\n    9. The right-side panel must plot `circumferential_ctp` and be titled 'Longitudinal CTP'.\n    10. Save this plot as a PNG file to the path: '"

/-- Lines 61–69 of the f-string, between the composite path and the combined
path. -/
def promptPart2 : String :=
  "'.\n\n    ### Function 2: Create Combined CTP Line Graph\n    This function must perform these actions:\n    1. Create a new figure.\n    2. Plot both `longitudinal_ctp` and `circumferential_ctp` on the same axes.\n    3. Include a legend to distinguish the two lines.\n    4. Add a title 'Combined CTP Trends' and appropriate axis labels.\n    5. Save this plot as a PNG file to the path: '"

/-- Lines 69–72 of the f-string, after the combined path. -/
def promptPart3 : String :=
  "'.\n\n    CRITICAL INSTRUCTION: Your entire response must be only the raw Python code required to define and call these two functions. Do not include any extra text, explanations, or markdown formatting.\n    "

/-- The f-string of lines 40–72 with its three substitutions
(`csv_data_string`, `composite_path`, `combined_path`). -/
def mk_prompt (csv_data_string composite combined : String) : String :=
  promptPart0 ++ csv_data_string ++ promptPart1 ++ composite ++ promptPart2
    ++ combined ++ promptPart3

/-- The prompt built for a given DataFrame and naming context. -/
def promptFor (df : DataFrame) (excel_filename sheet_name : String) : String :=
  mk_prompt df.toCsv (composite_path excel_filename sheet_name)
    (combined_path excel_filename sheet_name)

/-! ## `generate_visualization_with_gemini` (lines 19–113) -/

/-- The effect of the preamble of lines 98–101 on the module globals when
`exec(full_script, globals())` starts: `import io` binds `io`, and the raw
string assignment binds `csv_data_string` to the serialized table. -/
def preambleGlobals (g : Globals) (csv_data_string : String) : Globals :=
  pyUpdate (pyUpdate g "io" "<module io>") "csv_data_string" csv_data_string

/-- Result of `generate_visualization_with_gemini`: the returned pair (Python
`None` as `Option.none`), plus the machine state it leaves behind. -/
structure GenOutcome where
  ret₁ : Option String
  ret₂ : Option String
  globals : Globals
  fs : FS
  logs : List String

/-- Lines 19–113 of `app.py`.  The AI call covers lines 77–82; on any
exception there the function returns `(None, None)` having touched nothing.
Otherwise `exec(full_script, globals())` first performs the preamble
assignments in module globals and then runs the generated code body, whose
behaviour `env.runScript` supplies; on success the two computed paths are
returned without any check that files exist at them, on an exception the
generated source is logged and `(None, None)` is returned. -/
def generate_visualization_with_gemini (env : Env) (df : DataFrame)
    (excel_filename sheet_name : String) (g : Globals) (fs : FS) : GenOutcome :=
  let csv_data_string := df.toCsv
  let compositePathV := composite_path excel_filename sheet_name
  let combinedPathV := combined_path excel_filename sheet_name
  let prompt := promptFor df excel_filename sheet_name
  match env.aiResponse prompt with
  | .error e =>
      { ret₁ := none, ret₂ := none, globals := g, fs := fs
        logs := ["  > An error occurred while communicating with the Gemini API: " ++ e] }
  | .ok text =>
      let generated_code := generatedCode text
      let g1 := preambleGlobals g csv_data_string
      let out := env.runScript generated_code g1 fs
      if out.ok then
        { ret₁ := some compositePathV, ret₂ := some combinedPathV
          globals := out.globals, fs := out.fs, logs := [] }
      else
        { ret₁ := none, ret₂ := none, globals := out.globals, fs := out.fs
          logs := ["  > An error occurred while executing the code from Gemini: " ++ out.err,
                   "--- Code Generated by Gemini (for debugging) ---",
                   generated_code] }

/-! ## The upload route (lines 154–200) -/

/-- A parsed POST request to `/`: whether the form had a `file` part, the
submitted filename, the `sheet` field (the form defaults it to `"0"`), and the
uploaded bytes. -/
structure UploadRequest where
  hasFile : Bool
  filename : String
  sheet : String
  bytes : List Nat

/-- The template variables `render_template_string` is called with
(`HTML_TEMPLATE`, lines 116–151): images render only when both URLs are
present. -/
structure Response where
  message : Option String
  error : Option String
  composite_url : Option String
  combined_url : Option String
deriving DecidableEq

/-- A response with only the given error set, as every error branch of
`upload_file` produces. -/
def errorResponse (e : String) : Response :=
  { message := none, error := some e, composite_url := none, combined_url := none }

/-- Why intake failed: the extension guard of lines 174–180, or an exception
from pandas caught at line 196. -/
inductive IntakeErr where
  | unsupported (extn : String)
  | parseFail (e : String)
deriving DecidableEq

/-- Lines 168–180: extension dispatch and parsing of the uploaded bytes.
`file_extension = os.path.splitext(filename)[1].lower()`. -/
def intakeTable (env : Env) (bytes : List Nat) (filename sheet_input : String) :
    Except IntakeErr DataFrame :=
  let file_extension : String := ⟨lowerChars (splitextList filename.data).2⟩
  if file_extension = ".xlsx" || file_extension = ".xls" then
    match env.readExcel bytes (sheetIdentifier sheet_input) with
    | .ok df => .ok df
    | .error e => .error (.parseFail e)
  else if file_extension = ".csv" then
    match env.readCsv bytes with
    | .ok df => .ok df
    | .error e => .error (.parseFail e)
  else
    .error (.unsupported file_extension)

/-- Python truthiness of the values returned by
`generate_visualization_with_gemini` (line 185 tests
`if composite_path and combined_path:`): `None` and the empty string are
falsy. -/
def pyTruthy : Option String → Bool
  | none => false
  | some s => decide (s ≠ "")

/-- Result of handling one POST to `/`: the rendered template variables and
the machine state left behind. -/
structure AppOutcome where
  resp : Response
  globals : Globals
  fs : FS
  logs : List String

/-- Lines 156–198 of `app.py` (the POST branch of `upload_file`). -/
def upload_file_post (env : Env) (req : UploadRequest) (g : Globals) (fs : FS) :
    AppOutcome :=
  if req.hasFile = false then ⟨errorResponse "No file part", g, fs, []⟩
  else if req.filename = "" then ⟨errorResponse "No selected file", g, fs, []⟩
  else
    match intakeTable env req.bytes req.filename req.sheet with
    | .error (.unsupported extn) =>
        ⟨errorResponse ("Unsupported file type: " ++ extn ++ ". Please use .xlsx, .xls, or .csv."),
         g, fs, []⟩
    | .error (.parseFail e) =>
        ⟨errorResponse ("An internal error occurred during processing: " ++ e),
         g, fs, ["Processing error: " ++ e]⟩
    | .ok df =>
        let out := generate_visualization_with_gemini env df req.filename req.sheet g fs
        if pyTruthy out.ret₁ && pyTruthy out.ret₂ then
          ⟨{ message := some ("Successfully generated plots from " ++ req.filename ++ ".")
             error := none
             composite_url := some ("/images/" ++ posixBasename (out.ret₁.getD ""))
             combined_url := some ("/images/" ++ posixBasename (out.ret₂.getD "")) },
           out.globals, out.fs, out.logs⟩
        else
          ⟨errorResponse "Plot generation failed. Check Cloud Run logs for details.",
           out.globals, out.fs, out.logs⟩

/-! ## The image route (lines 203–209) -/

/-- What `serve_image` replies: a streamed file with a mimetype, or a 404
body/status pair. -/
inductive ServeResult where
  | fileResp (path mimetype : String)
  | notFound (body : String) (status : Nat)
deriving DecidableEq

/-- Lines 203–209 of `app.py`. -/
def serve_image (fs : FS) (filename : String) : ServeResult :=
  let file_path := posixJoin "/tmp" filename
  if file_path ∈ fs then .fileResp file_path "image/png"
  else .notFound "Image not found" 404

/-! ## Auxiliary predicates for the claims -/

/-- `a` occurs contiguously inside `b`. -/
def SubstringOf (a b : String) : Prop :=
  ∃ p s, b.data = p ++ a.data ++ s

/-! ## Concrete external worlds used by witnesses and counterexamples -/

/-- The module globals before any request's `exec` has run: none of the names
the preamble binds are present. -/
def g0 : Globals := fun _ => none

/-- A benign external world: parsers succeed, the AI returns a fixed
completion, and the generated script body runs without raising and without
touching globals or the filesystem. -/
def envDefault : Env where
  readExcel := fun _ _ => Except.ok ⟨"i,x\n0,1\n"⟩
  readCsv := fun _ => Except.ok ⟨"i,x\n0,1\n"⟩
  aiResponse := fun _ => Except.ok "pass"
  runScript := fun _ g fs => ⟨true, "", g, fs⟩

/-- An external world in which the AI call raises. -/
def envAIFail : Env where
  readExcel := fun _ _ => Except.ok ⟨"i,x\n0,1\n"⟩
  readCsv := fun _ => Except.ok ⟨"i,x\n0,1\n"⟩
  aiResponse := fun _ => Except.error "503 Service Unavailable"
  runScript := fun _ g fs => ⟨true, "", g, fs⟩

/-- An external world in which the generated script raises when executed. -/
def envExecFail : Env where
  readExcel := fun _ _ => Except.ok ⟨"i,x\n0,1\n"⟩
  readCsv := fun _ => Except.ok ⟨"i,x\n0,1\n"⟩
  aiResponse := fun _ => Except.ok "```python\nraise ValueError('no axes')\n```"
  runScript := fun _ g fs => ⟨false, "ValueError: no axes", g, fs⟩

/-- An external world in which the generated script terminates normally but
writes only the composite file, never the combined one. -/
def envOneFile : Env where
  readExcel := fun _ _ => Except.ok ⟨"i,x\n0,1\n"⟩
  readCsv := fun _ => Except.ok ⟨"i,x\n0,1\n"⟩
  aiResponse := fun _ => Except.ok "plot_composite()"
  runScript := fun _ g fs => ⟨true, "", g, "/tmp/data_sheet_0_composite_plot.png" :: fs⟩

/-! ## Lemmas about the fence-stripping scan -/

/-- A list is a prefix of itself followed by anything. -/
theorem startsWithChars_append (p r : List Char) : startsWithChars p (p ++ r) = true := by
  induction p with
  | nil => rfl
  | cons c cs ih => simp [startsWithChars, ih]

/-- A prefix test for a longer pattern implies the test for its initial part. -/
theorem startsWithChars_of_append (p q l : List Char)
    (h : startsWithChars (p ++ q) l = true) : startsWithChars p l = true := by
  induction p generalizing l with
  | nil => rfl
  | cons a ps ih =>
    cases l with
    | nil => simp [startsWithChars] at h
    | cons b bs =>
      simp only [List.cons_append, startsWithChars, Bool.and_eq_true, decide_eq_true_eq] at h ⊢
      exact ⟨h.1, ih bs h.2⟩

/-- The scan leaves the empty text empty whatever the fuel. -/
theorem reSubFencesAux_nil (f : Nat) : reSubFencesAux f [] = [] := by
  cases f <;> rfl

/-- Any two sufficient fuels give the same scan result. -/
theorem reSubFencesAux_fuel (f g : Nat) (l : List Char) (hf : l.length ≤ f)
    (hg : l.length ≤ g) : reSubFencesAux f l = reSubFencesAux g l := by
  induction f generalizing g l with
  | zero =>
    have : l = [] := by cases l with | nil => rfl | cons c cs => simp at hf
    subst this
    simp [reSubFencesAux_nil]
  | succ f ih =>
    cases l with
    | nil => simp [reSubFencesAux_nil]
    | cons c cs =>
      cases g with
      | zero => simp at hg
      | succ g =>
        have hf' : cs.length ≤ f := by simpa using hf
        have hg' : cs.length ≤ g := by simpa using hg
        simp only [reSubFencesAux]
        split
        · exact ih _ _ (by simp [List.length_drop]; omega) (by simp [List.length_drop]; omega)
        · split
          · exact ih _ _ (by simp [List.length_drop]; omega) (by simp [List.length_drop]; omega)
          · rw [ih _ _ hf' hg']

/-- A position where no bare fence starts (hence no ```python\n fence either)
keeps its character and the scan moves on. -/
theorem resub_fallthrough (c : Char) (cs : List Char)
    (h : startsWithChars fenceTicksData (c :: cs) = false) :
    reSubFences (c :: cs) = c :: reSubFences cs := by
  have hopen : startsWithChars fenceOpenData (c :: cs) = false := by
    cases hs : startsWithChars fenceOpenData (c :: cs)
    · rfl
    · have : startsWithChars fenceTicksData (c :: cs) = true :=
        startsWithChars_of_append fenceTicksData ['p', 'y', 't', 'h', 'o', 'n', '\n'] _ hs
      rw [h] at this
      exact absurd this (by simp)
  show reSubFencesAux (cs.length + 1) (c :: cs) = c :: reSubFencesAux cs.length cs
  simp [reSubFencesAux, hopen, h]

/-- A leading ```python\n fence is removed and the scan continues after it. -/
theorem resub_open (r : List Char) : reSubFences (fenceOpenData ++ r) = reSubFences r := by
  have h1 : reSubFences (fenceOpenData ++ r) = reSubFencesAux (r.length + 9) r := rfl
  rw [h1]
  exact reSubFencesAux_fuel _ _ _ (by omega) (by omega)

/-- Text with no triple backtick anywhere passes through the scan unchanged. -/
theorem resub_of_noTicks (l : List Char) (h : containsTicks l = false) :
    reSubFences l = l := by
  induction l with
  | nil => rfl
  | cons c cs ih =>
    have h' : startsWithChars fenceTicksData (c :: cs) = false ∧ containsTicks cs = false := by
      simpa [containsTicks] using h
    rw [resub_fallthrough c cs h'.1, ih h'.2]

/-- A tick-free body followed by a closing fence scans to exactly the body,
including the boundary cases where the body ends in one or two backticks. -/
theorem resub_body_ticks (b : List Char) (h : containsTicks b = false) :
    reSubFences (b ++ fenceTicksData) = b := by
  induction b with
  | nil => decide
  | cons c cs ih =>
    have h' : startsWithChars fenceTicksData (c :: cs) = false ∧ containsTicks cs = false := by
      simpa [containsTicks] using h
    have ihx : containsTicks cs = false → reSubFences (cs ++ fenceTicksData) = cs := ih
    by_cases hc : ('`' : Char) = c
    · subst hc
      cases cs with
      | nil => decide
      | cons c2 cs2 =>
        by_cases hc2 : ('`' : Char) = c2
        · subst hc2
          cases cs2 with
          | nil => decide
          | cons c3 cs3 =>
            by_cases hc3 : ('`' : Char) = c3
            · subst hc3
              simp [startsWithChars, fenceTicksData] at h'
            · have hsw : startsWithChars fenceTicksData
                  ('`' :: '`' :: c3 :: (cs3 ++ fenceTicksData)) = false := by
                simp [startsWithChars, fenceTicksData, hc3]
              have hgoal : ('`' :: '`' :: c3 :: cs3) ++ fenceTicksData
                  = '`' :: ('`' :: c3 :: (cs3 ++ fenceTicksData)) := by
                simp
              rw [hgoal, resub_fallthrough _ _ hsw]
              have := ihx h'.2
              simp only [List.cons_append] at this
              rw [this]
        · have hsw : startsWithChars fenceTicksData
              ('`' :: c2 :: (cs2 ++ fenceTicksData)) = false := by
            simp [startsWithChars, fenceTicksData, hc2]
          have hgoal : ('`' :: c2 :: cs2) ++ fenceTicksData
              = '`' :: (c2 :: (cs2 ++ fenceTicksData)) := by simp
          rw [hgoal, resub_fallthrough _ _ hsw]
          have := ihx h'.2
          simp only [List.cons_append] at this
          rw [this]
    · have hsw : startsWithChars fenceTicksData (c :: (cs ++ fenceTicksData)) = false := by
        simp [startsWithChars, fenceTicksData, hc]
      have hgoal : (c :: cs) ++ fenceTicksData = c :: (cs ++ fenceTicksData) := by simp
      rw [hgoal, resub_fallthrough _ _ hsw]
      rw [ihx h'.2]

/-! ## C5 -/

/-- C5: for every requested filename, `serve_image` returns the 404 response
exactly when no file exists at the path obtained by joining `/tmp` with that
filename, and otherwise streams that file back with the `image/png` content
type. -/
theorem serve_image_notfound_iff (fs : FS) (filename : String) :
    (serve_image fs filename = ServeResult.notFound "Image not found" 404
        ↔ posixJoin "/tmp" filename ∉ fs)
    ∧ (posixJoin "/tmp" filename ∈ fs →
        serve_image fs filename
          = ServeResult.fileResp (posixJoin "/tmp" filename) "image/png") := by
  unfold serve_image
  by_cases h : posixJoin "/tmp" filename ∈ fs
  · simp [h]
  · simp [h]

/-- Witness for C5 at a concrete filesystem and filename. -/
theorem serve_image_notfound_iff_witness :
    posixJoin "/tmp" "a.png" ∈ (["/tmp/a.png"] : FS)
    ∧ serve_image ["/tmp/a.png"] "a.png"
        = ServeResult.fileResp (posixJoin "/tmp" "a.png") "image/png" :=
  ⟨by decide, (serve_image_notfound_iff ["/tmp/a.png"] "a.png").2 (by decide)⟩

/-! ## C7 -/

/-- C7: the two output artifact filenames are deterministic functions of the
(original filename, sheet identifier) pair, equal to
base_sheet_SHEET_composite_plot.png and base_sheet_SHEET_combined_ctp_graph.png
where base drops the extension and SHEET replaces spaces by underscores; and
whenever `generate_visualization_with_gemini` returns paths at all it returns
exactly `/tmp` joined with these two filenames. -/
theorem output_filenames_deterministic (excel_filename sheet_name : String) :
    output_filename_composite excel_filename sheet_name
      = base_name excel_filename ++ "_sheet_" ++ sheet_str sheet_name ++ "_composite_plot.png"
    ∧ output_filename_combined excel_filename sheet_name
      = base_name excel_filename ++ "_sheet_" ++ sheet_str sheet_name ++ "_combined_ctp_graph.png"
    ∧ ∀ (env : Env) (df : DataFrame) (g : Globals) (fs : FS),
        ((generate_visualization_with_gemini env df excel_filename sheet_name g fs).ret₁ ≠ none →
          (generate_visualization_with_gemini env df excel_filename sheet_name g fs).ret₁
            = some (posixJoin "/tmp" (output_filename_composite excel_filename sheet_name)))
        ∧ ((generate_visualization_with_gemini env df excel_filename sheet_name g fs).ret₂ ≠ none →
          (generate_visualization_with_gemini env df excel_filename sheet_name g fs).ret₂
            = some (posixJoin "/tmp" (output_filename_combined excel_filename sheet_name))) := by
  refine ⟨rfl, rfl, fun env df g fs => ?_⟩
  rcases hai : env.aiResponse (promptFor df excel_filename sheet_name) with e | t
  · simp [generate_visualization_with_gemini, hai]
  · by_cases hr : (env.runScript (generatedCode t) (preambleGlobals g df.toCsv) fs).ok = true
    · simp [generate_visualization_with_gemini, hai, hr, composite_path, combined_path]
    · simp [generate_visualization_with_gemini, hai, hr]

/-- Witness for C7: the returned composite path at a concrete request. -/
theorem output_filenames_deterministic_witness :
    (generate_visualization_with_gemini envDefault ⟨"i,x\n"⟩ "data.xlsx" "Sheet 1" g0 []).ret₁
      = some (posixJoin "/tmp" (output_filename_composite "data.xlsx" "Sheet 1")) :=
  ((output_filenames_deterministic "data.xlsx" "Sheet 1").2.2 envDefault ⟨"i,x\n"⟩ g0 []).1
    (by decide)

/-! ## C8 -/

/-- C8: for every parsed table, the prompt built for the AI model contains the
exact CSV serialization of that table as a contiguous substring. -/
theorem prompt_contains_csv (df : DataFrame) (excel_filename sheet_name : String) :
    SubstringOf df.toCsv (promptFor df excel_filename sheet_name) := by
  refine ⟨promptPart0.data,
    (promptPart1 ++ composite_path excel_filename sheet_name ++ promptPart2
      ++ combined_path excel_filename sheet_name ++ promptPart3).data, ?_⟩
  simp [promptFor, mk_prompt, String.data_append, List.append_assoc]

/-! ## C9 -/

/-- C9 counterexample: the completion a```b carries no surrounding fence
markup and no surrounding whitespace, so under the claim the GeneratedScript
would be the completion itself (as the spec-modelled `stripSurroundingSpec`
computes); the code instead deletes the interior fence and produces ab. -/
theorem resub_removes_interior_fences :
    generatedCode "a```b" = "ab"
    ∧ stripSurroundingSpec "a```b" = "a```b"
    ∧ generatedCode "a```b" ≠ stripSurroundingSpec "a```b" :=
  ⟨by decide, by decide, by decide⟩

/-- C9 amended: the GeneratedScript is the completion with *every* occurrence
of ```python\n or ``` removed, wherever it occurs, then stripped of
leading/trailing whitespace; when the completion's body is free of triple
backticks this coincides with removing the surrounding fence markup, so a
properly fenced completion and a bare completion both yield the
whitespace-stripped body. -/
theorem generated_code_removes_all_fences (body : String)
    (h : containsTicks body.data = false) :
    generatedCode ("```python\n" ++ body ++ "```") = pyStripStr body
    ∧ generatedCode body = pyStripStr body := by
  constructor
  · show pyStripStr ⟨reSubFences (("```python\n" ++ body ++ "```").data)⟩ = pyStripStr body
    have hd : ("```python\n" ++ body ++ "```").data
        = fenceOpenData ++ (body.data ++ fenceTicksData) := by
      simp [String.data_append, fenceOpenData, fenceTicksData]
    rw [hd, resub_open, resub_body_ticks _ h]
  · show pyStripStr ⟨reSubFences body.data⟩ = pyStripStr body
    rw [resub_of_noTicks _ h]

/-- Witness for C9 amended at a concrete tick-free body. -/
theorem generated_code_removes_all_fences_witness :
    containsTicks ("x = 1\nprint(x)" : String).data = false
    ∧ (generatedCode ("```python\n" ++ "x = 1\nprint(x)" ++ "```")
          = pyStripStr "x = 1\nprint(x)"
       ∧ generatedCode "x = 1\nprint(x)" = pyStripStr "x = 1\nprint(x)") :=
  ⟨by decide, generated_code_removes_all_fences "x = 1\nprint(x)" (by decide)⟩

/-! ## C1 -/

/-- C1 counterexample: an external world in which the generated script
terminates normally but writes only the composite file; the function still
returns both computed paths — it reports success although only one of the two
files was produced, because it never checks a file exists. -/
theorem generate_reports_success_without_both_files :
    (generate_visualization_with_gemini envOneFile ⟨"i,x\n0,1\n"⟩ "data.xlsx" "0" g0 []).ret₁
      = some "/tmp/data_sheet_0_composite_plot.png"
    ∧ (generate_visualization_with_gemini envOneFile ⟨"i,x\n0,1\n"⟩ "data.xlsx" "0" g0 []).ret₂
      = some "/tmp/data_sheet_0_combined_ctp_graph.png"
    ∧ (generate_visualization_with_gemini envOneFile ⟨"i,x\n0,1\n"⟩ "data.xlsx" "0" g0 []).fs
      = ["/tmp/data_sheet_0_composite_plot.png"]
    ∧ "/tmp/data_sheet_0_combined_ctp_graph.png"
      ∉ (generate_visualization_with_gemini envOneFile ⟨"i,x\n0,1\n"⟩ "data.xlsx" "0" g0 []).fs :=
  ⟨by decide, by decide, by decide, by decide⟩

/-- C1 amended: for every (AI response, parsed table) pair,
`generate_visualization_with_gemini` either returns exactly the two computed
`/tmp` paths (whenever the AI call succeeds and the script raises no error —
with no check that files exist at those paths) or reports failure by
returning `(None, None)`. -/
theorem generate_returns_paths_or_none (env : Env) (df : DataFrame)
    (excel_filename sheet_name : String) (g : Globals) (fs : FS) :
    ((generate_visualization_with_gemini env df excel_filename sheet_name g fs).ret₁
        = some (composite_path excel_filename sheet_name)
      ∧ (generate_visualization_with_gemini env df excel_filename sheet_name g fs).ret₂
        = some (combined_path excel_filename sheet_name))
    ∨ ((generate_visualization_with_gemini env df excel_filename sheet_name g fs).ret₁ = none
      ∧ (generate_visualization_with_gemini env df excel_filename sheet_name g fs).ret₂ = none) := by
  rcases hai : env.aiResponse (promptFor df excel_filename sheet_name) with e | t
  · right
    simp [generate_visualization_with_gemini, hai]
  · by_cases hr : (env.runScript (generatedCode t) (preambleGlobals g df.toCsv) fs).ok = true
    · left
      simp [generate_visualization_with_gemini, hai, hr]
    · right
      simp [generate_visualization_with_gemini, hai, hr]

/-! ## C2 -/

/-- C2 counterexample: a request processed in an external world whose
generated script itself touches nothing still leaves the module globals
changed — the preamble of `exec(full_script, globals())` binds
`csv_data_string` in module scope, so the globals after the request differ
from the `g0` before it. -/
theorem request_leaves_changed_globals :
    (generate_visualization_with_gemini envDefault ⟨"i,x\n0,1\n"⟩ "d.csv" "0" g0 []).globals
        "csv_data_string" = some "i,x\n0,1\n"
    ∧ (g0 : Globals) "csv_data_string" = none
    ∧ (generate_visualization_with_gemini envDefault ⟨"i,x\n0,1\n"⟩ "d.csv" "0" g0 []).globals
        ≠ g0 := by
  refine ⟨by decide, rfl, fun h => ?_⟩
  have h2 : (generate_visualization_with_gemini envDefault ⟨"i,x\n0,1\n"⟩ "d.csv" "0" g0 []).globals
      "csv_data_string" = some "i,x\n0,1\n" := by decide
  rw [h] at h2
  exact Option.noConfusion h2

/-- C2 amended: processing a request is not free of in-process state changes:
whenever the AI call succeeds, the script is executed in the module globals
after the preamble has bound `csv_data_string` to the request's CSV text
there, so even a state-preserving script leaves globals in which
`csv_data_string` is bound — and the global environment differs from the one
before the request whenever that binding is new. -/
theorem exec_binds_csv_in_module_globals (env : Env) (df : DataFrame)
    (excel_filename sheet_name : String) (g : Globals) (fs : FS) (t : String)
    (hai : env.aiResponse (promptFor df excel_filename sheet_name) = .ok t)
    (hrun : ∀ code g' fs', env.runScript code g' fs' = ⟨true, "", g', fs'⟩) :
    (generate_visualization_with_gemini env df excel_filename sheet_name g fs).globals
        "csv_data_string" = some df.toCsv
    ∧ (g "csv_data_string" ≠ some df.toCsv →
        (generate_visualization_with_gemini env df excel_filename sheet_name g fs).globals ≠ g) := by
  have hgen : (generate_visualization_with_gemini env df excel_filename sheet_name g fs).globals
      = preambleGlobals g df.toCsv := by
    unfold generate_visualization_with_gemini
    simp [hai, hrun]
  have hlook : preambleGlobals g df.toCsv "csv_data_string" = some df.toCsv := by
    simp [preambleGlobals, pyUpdate]
  refine ⟨by rw [hgen]; exact hlook, fun hne heq => hne ?_⟩
  rw [← heq, hgen]
  exact hlook

/-- Witness for C2 amended at a concrete benign external world. -/
theorem exec_binds_csv_in_module_globals_witness :
    (generate_visualization_with_gemini envDefault ⟨"i,x\n0,1\n"⟩ "d.csv" "0" g0 []).globals
        "csv_data_string" = some "i,x\n0,1\n"
    ∧ ((g0 : Globals) "csv_data_string" ≠ some "i,x\n0,1\n" →
        (generate_visualization_with_gemini envDefault ⟨"i,x\n0,1\n"⟩ "d.csv" "0" g0 []).globals
          ≠ g0) :=
  exec_binds_csv_in_module_globals envDefault ⟨"i,x\n0,1\n"⟩ "d.csv" "0" g0 [] "pass"
    rfl (fun _ _ _ => rfl)

/-! ## C3 -/

/-- C3: whenever the AI call raises, `generate_visualization_with_gemini`
returns `(None, None)` without executing any script (the outcome is the same
whatever `runScript` the world supplies), no files are written and globals are
untouched, and the rendered response carries the "Plot generation failed"
error and no image URLs. -/
theorem ai_failure_yields_clean_failure (env : Env) (req : UploadRequest)
    (g : Globals) (fs : FS) (df : DataFrame) (e : String)
    (hf : req.hasFile = true) (hn : req.filename ≠ "")
    (hparse : intakeTable env req.bytes req.filename req.sheet = .ok df)
    (hai : env.aiResponse (promptFor df req.filename req.sheet) = .error e) :
    (upload_file_post env req g fs).resp
      = errorResponse "Plot generation failed. Check Cloud Run logs for details."
    ∧ SubstringOf "Plot generation failed"
        (((upload_file_post env req g fs).resp.error).getD "")
    ∧ (upload_file_post env req g fs).resp.composite_url = none
    ∧ (upload_file_post env req g fs).resp.combined_url = none
    ∧ (upload_file_post env req g fs).fs = fs
    ∧ (upload_file_post env req g fs).globals = g
    ∧ (generate_visualization_with_gemini env df req.filename req.sheet g fs).ret₁ = none
    ∧ (generate_visualization_with_gemini env df req.filename req.sheet g fs).ret₂ = none
    ∧ ∀ rs, upload_file_post { env with runScript := rs } req g fs
        = upload_file_post env req g fs := by
  have hval : ∀ e' : Env,
      e'.aiResponse (promptFor df req.filename req.sheet) = .error e →
      intakeTable e' req.bytes req.filename req.sheet = .ok df →
      upload_file_post e' req g fs
        = ⟨errorResponse "Plot generation failed. Check Cloud Run logs for details.", g, fs,
           ["  > An error occurred while communicating with the Gemini API: " ++ e]⟩ := by
    intro e' hai' hparse'
    have hgen : generate_visualization_with_gemini e' df req.filename req.sheet g fs
        = { ret₁ := none, ret₂ := none, globals := g, fs := fs,
            logs := ["  > An error occurred while communicating with the Gemini API: " ++ e] } := by
      unfold generate_visualization_with_gemini
      simp [hai']
    unfold upload_file_post
    simp [hf, hn, hparse', hgen, pyTruthy]
  have hU := hval env hai hparse
  have hgen : generate_visualization_with_gemini env df req.filename req.sheet g fs
      = { ret₁ := none, ret₂ := none, globals := g, fs := fs,
          logs := ["  > An error occurred while communicating with the Gemini API: " ++ e] } := by
    unfold generate_visualization_with_gemini
    simp [hai]
  refine ⟨by simp [hU], ?_, by simp [hU, errorResponse], by simp [hU, errorResponse],
    by simp [hU], by simp [hU], by simp [hgen], by simp [hgen], fun rs => ?_⟩
  · rw [hU]
    refine ⟨[], (". Check Cloud Run logs for details.").data, ?_⟩
    have h0 : ("Plot generation failed. Check Cloud Run logs for details." : String)
        = "Plot generation failed" ++ ". Check Cloud Run logs for details." := by decide
    simp [errorResponse, h0, String.data_append]
  · have hai2 : ({ env with runScript := rs } : Env).aiResponse
        (promptFor df req.filename req.sheet) = .error e := hai
    have hparse2 : intakeTable { env with runScript := rs } req.bytes req.filename req.sheet
        = .ok df := hparse
    rw [hval { env with runScript := rs } hai2 hparse2, hU]

/-- Witness for C3 at a concrete failing AI world. -/
theorem ai_failure_yields_clean_failure_witness :
    intakeTable envAIFail [] "d.csv" "0" = Except.ok ⟨"i,x\n0,1\n"⟩
    ∧ envAIFail.aiResponse (promptFor ⟨"i,x\n0,1\n"⟩ "d.csv" "0")
        = Except.error "503 Service Unavailable"
    ∧ (upload_file_post envAIFail ⟨true, "d.csv", "0", []⟩ g0 []).resp
        = errorResponse "Plot generation failed. Check Cloud Run logs for details."
    ∧ (upload_file_post envAIFail ⟨true, "d.csv", "0", []⟩ g0 []).fs = [] := by
  have happ := ai_failure_yields_clean_failure envAIFail ⟨true, "d.csv", "0", []⟩ g0 []
    ⟨"i,x\n0,1\n"⟩ "503 Service Unavailable" rfl (by decide) rfl rfl
  exact ⟨rfl, rfl, happ.1, happ.2.2.2.2.1⟩

/-! ## C4 -/

/-- C4: whenever executing the generated script raises, the request is still
answered (the handler is total and returns a rendered response), the
generated source text appears in the server-side logs,
`generate_visualization_with_gemini` returns `(None, None)`, and the user
receives the same generic "Plot generation failed" response as for an
AI-service failure, with no image URLs. -/
theorem script_error_logged_generic_failure (env : Env) (req : UploadRequest)
    (g : Globals) (fs : FS) (df : DataFrame) (t : String)
    (hf : req.hasFile = true) (hn : req.filename ≠ "")
    (hparse : intakeTable env req.bytes req.filename req.sheet = .ok df)
    (hai : env.aiResponse (promptFor df req.filename req.sheet) = .ok t)
    (hrun : (env.runScript (generatedCode t) (preambleGlobals g df.toCsv) fs).ok = false) :
    (upload_file_post env req g fs).resp
      = errorResponse "Plot generation failed. Check Cloud Run logs for details."
    ∧ (upload_file_post env req g fs).resp.composite_url = none
    ∧ (upload_file_post env req g fs).resp.combined_url = none
    ∧ generatedCode t ∈ (upload_file_post env req g fs).logs
    ∧ (generate_visualization_with_gemini env df req.filename req.sheet g fs).ret₁ = none
    ∧ (generate_visualization_with_gemini env df req.filename req.sheet g fs).ret₂ = none := by
  have hgen : generate_visualization_with_gemini env df req.filename req.sheet g fs
      = { ret₁ := none, ret₂ := none,
          globals := (env.runScript (generatedCode t) (preambleGlobals g df.toCsv) fs).globals,
          fs := (env.runScript (generatedCode t) (preambleGlobals g df.toCsv) fs).fs,
          logs := ["  > An error occurred while executing the code from Gemini: "
              ++ (env.runScript (generatedCode t) (preambleGlobals g df.toCsv) fs).err,
            "--- Code Generated by Gemini (for debugging) ---",
            generatedCode t] } := by
    unfold generate_visualization_with_gemini
    simp [hai, hrun]
  have hU : upload_file_post env req g fs
      = ⟨errorResponse "Plot generation failed. Check Cloud Run logs for details.",
         (env.runScript (generatedCode t) (preambleGlobals g df.toCsv) fs).globals,
         (env.runScript (generatedCode t) (preambleGlobals g df.toCsv) fs).fs,
         ["  > An error occurred while executing the code from Gemini: "
             ++ (env.runScript (generatedCode t) (preambleGlobals g df.toCsv) fs).err,
           "--- Code Generated by Gemini (for debugging) ---",
           generatedCode t]⟩ := by
    unfold upload_file_post
    simp [hf, hn, hparse, hgen, pyTruthy]
  refine ⟨by simp [hU], by simp [hU, errorResponse], by simp [hU, errorResponse],
    by simp [hU], by simp [hgen], by simp [hgen]⟩

/-- Witness for C4 at a concrete world whose script raises. -/
theorem script_error_logged_generic_failure_witness :
    intakeTable envExecFail [] "d.csv" "0" = Except.ok ⟨"i,x\n0,1\n"⟩
    ∧ envExecFail.aiResponse (promptFor ⟨"i,x\n0,1\n"⟩ "d.csv" "0")
        = Except.ok "```python\nraise ValueError('no axes')\n```"
    ∧ (envExecFail.runScript (generatedCode "```python\nraise ValueError('no axes')\n```")
        (preambleGlobals g0 "i,x\n0,1\n") []).ok = false
    ∧ (upload_file_post envExecFail ⟨true, "d.csv", "0", []⟩ g0 []).resp
        = errorResponse "Plot generation failed. Check Cloud Run logs for details."
    ∧ generatedCode "```python\nraise ValueError('no axes')\n```"
        ∈ (upload_file_post envExecFail ⟨true, "d.csv", "0", []⟩ g0 []).logs := by
  have happ := script_error_logged_generic_failure envExecFail ⟨true, "d.csv", "0", []⟩ g0 []
    ⟨"i,x\n0,1\n"⟩ "```python\nraise ValueError('no axes')\n```" rfl (by decide) rfl rfl rfl
  exact ⟨rfl, rfl, rfl, happ.1, happ.2.2.2.1⟩

/-! ## C6 -/

/-- C6: an uploaded file whose lower-cased extension is not .xlsx, .xls or
.csv fails with a response whose error contains "Unsupported file type", has
no image URLs, and leaves filesystem, globals and logs untouched; the outcome
does not depend on the external world at all, so neither parsing, prompting
nor script execution takes place. -/
theorem unsupported_extension_rejected_early (env envAlt : Env) (req : UploadRequest)
    (g : Globals) (fs : FS)
    (hf : req.hasFile = true) (hn : req.filename ≠ "")
    (hext : (⟨lowerChars (splitextList req.filename.data).2⟩ : String) ∉
      ([".xlsx", ".xls", ".csv"] : List String)) :
    (upload_file_post env req g fs).resp
      = errorResponse ("Unsupported file type: "
          ++ (⟨lowerChars (splitextList req.filename.data).2⟩ : String)
          ++ ". Please use .xlsx, .xls, or .csv.")
    ∧ SubstringOf "Unsupported file type"
        (((upload_file_post env req g fs).resp.error).getD "")
    ∧ (upload_file_post env req g fs).resp.composite_url = none
    ∧ (upload_file_post env req g fs).resp.combined_url = none
    ∧ (upload_file_post env req g fs).fs = fs
    ∧ (upload_file_post env req g fs).globals = g
    ∧ (upload_file_post env req g fs).logs = []
    ∧ upload_file_post envAlt req g fs = upload_file_post env req g fs := by
  simp only [List.mem_cons, List.mem_singleton, not_or] at hext
  obtain ⟨h1, h2, h3⟩ := hext
  have hI : ∀ e : Env, intakeTable e req.bytes req.filename req.sheet
      = .error (.unsupported ⟨lowerChars (splitextList req.filename.data).2⟩) := by
    intro e
    unfold intakeTable
    simp [h1, h2, h3]
  have hU : ∀ e : Env, upload_file_post e req g fs
      = ⟨errorResponse ("Unsupported file type: "
          ++ (⟨lowerChars (splitextList req.filename.data).2⟩ : String)
          ++ ". Please use .xlsx, .xls, or .csv."), g, fs, []⟩ := by
    intro e
    unfold upload_file_post
    simp [hf, hn, hI e]
  refine ⟨by simp [hU env], ?_, by simp [hU env, errorResponse], by simp [hU env, errorResponse],
    by simp [hU env], by simp [hU env], by simp [hU env], by rw [hU envAlt, hU env]⟩
  rw [hU env]
  refine ⟨[], (": " ++ (⟨lowerChars (splitextList req.filename.data).2⟩ : String)
      ++ ". Please use .xlsx, .xls, or .csv.").data, ?_⟩
  have h0 : ("Unsupported file type: " : String)
      = "Unsupported file type" ++ ": " := by decide
  simp [errorResponse, h0, String.data_append, List.append_assoc]

/-- Witness for C6 at a concrete `.txt` upload. -/
theorem unsupported_extension_rejected_early_witness :
    (⟨true, "notes.txt", "0", []⟩ : UploadRequest).hasFile = true
    ∧ ("notes.txt" : String) ≠ ""
    ∧ (⟨lowerChars (splitextList ("notes.txt" : String).data).2⟩ : String) ∉
        ([".xlsx", ".xls", ".csv"] : List String)
    ∧ (upload_file_post envDefault ⟨true, "notes.txt", "0", []⟩ g0 []).resp
        = errorResponse ("Unsupported file type: "
            ++ (⟨lowerChars (splitextList ("notes.txt" : String).data).2⟩ : String)
            ++ ". Please use .xlsx, .xls, or .csv.") :=
  ⟨rfl, by decide, by decide,
    (unsupported_extension_rejected_early envDefault envDefault ⟨true, "notes.txt", "0", []⟩
      g0 [] rfl (by decide) (by decide)).1⟩

/-! ## C10 -/

/-- Cancellation of a shared base, separator and suffix around the
sheet-derived part of an output filename. -/
theorem append_core_cancel (B S x y suf : String)
    (h : B ++ S ++ x ++ suf = B ++ S ++ y ++ suf) : x = y := by
  have hd := congrArg String.data h
  simp only [String.data_append, List.append_assoc] at hd
  have h1 := List.append_cancel_left hd
  have h2 := List.append_cancel_left h1
  have h3 := List.append_cancel_right h2
  calc x = ⟨x.data⟩ := rfl
    _ = ⟨y.data⟩ := by rw [h3]
    _ = y := rfl

/-- C10 counterexample: the distinct sheet identifiers "a b" and "a_b"
produce identical output filenames and paths (space is replaced by
underscore before the names are built), so two such requests do not write to
different paths. -/
theorem sheet_collision_same_paths :
    ("a b" : String) ≠ "a_b"
    ∧ output_filename_composite "f.csv" "a b" = output_filename_composite "f.csv" "a_b"
    ∧ output_filename_combined "f.csv" "a b" = output_filename_combined "f.csv" "a_b"
    ∧ composite_path "f.csv" "a b" = composite_path "f.csv" "a_b"
    ∧ combined_path "f.csv" "a b" = combined_path "f.csv" "a_b" :=
  ⟨by decide, by decide, by decide, by decide, by decide⟩

/-- C10 amended: for a `.csv` upload the parsed table depends only on the
file's bytes and not on the submitted sheet identifier, while the two output
artifact filenames for a fixed original filename coincide exactly when the
sheet identifiers agree after replacing spaces with underscores — so two
requests with the same CSV bytes and different sheet values parse to the same
table and write to different paths precisely when the sanitized sheet strings
differ. -/
theorem csv_parse_ignores_sheet_paths_keyed (env : Env) (bytes : List Nat)
    (fn s1 s2 : String)
    (hext : (⟨lowerChars (splitextList fn.data).2⟩ : String) = ".csv") :
    intakeTable env bytes fn s1 = intakeTable env bytes fn s2
    ∧ (output_filename_composite fn s1 = output_filename_composite fn s2
        ↔ sheet_str s1 = sheet_str s2)
    ∧ (output_filename_combined fn s1 = output_filename_combined fn s2
        ↔ sheet_str s1 = sheet_str s2) := by
  refine ⟨?_, ⟨fun h => ?_, fun h => ?_⟩, ⟨fun h => ?_, fun h => ?_⟩⟩
  · unfold intakeTable
    simp [hext]
  · unfold output_filename_composite at h
    exact append_core_cancel _ _ _ _ _ h
  · unfold output_filename_composite
    rw [h]
  · unfold output_filename_combined at h
    exact append_core_cancel _ _ _ _ _ h
  · unfold output_filename_combined
    rw [h]

/-- Witness for C10 amended at a concrete CSV upload with two sheet values. -/
theorem csv_parse_ignores_sheet_paths_keyed_witness :
    (⟨lowerChars (splitextList ("f.csv" : String).data).2⟩ : String) = ".csv"
    ∧ (intakeTable envDefault [] "f.csv" "7" = intakeTable envDefault [] "f.csv" "Sheet A"
      ∧ (output_filename_composite "f.csv" "7" = output_filename_composite "f.csv" "Sheet A"
          ↔ sheet_str "7" = sheet_str "Sheet A")
      ∧ (output_filename_combined "f.csv" "7" = output_filename_combined "f.csv" "Sheet A"
          ↔ sheet_str "7" = sheet_str "Sheet A")) :=
  ⟨by decide, csv_parse_ignores_sheet_paths_keyed envDefault [] "f.csv" "7" "Sheet A" (by decide)⟩
